import Mathlib

/-!
A shallow embedding of the request-admission front-end of the kvdo kernel
layer (`kernelLayer.c`, `deadlockQueue.h`, `blockMapFormat.c`,
`bufferedWriter.c`), together with theorems checking the natural-language
specification against it.

External collaborator calls (engine, dedupe index, block layer) are
recorded as events in a trace; results of collaborator calls that the
code branches on are passed in as parameters.
-/

namespace Kvdo

/-! ## Basic constants (from linux block layer and dm) -/

/-- `REQ_OP_READ` -/
def REQ_OP_READ : Nat := 0
/-- `REQ_OP_WRITE` -/
def REQ_OP_WRITE : Nat := 1
/-- `REQ_OP_FLUSH` -/
def REQ_OP_FLUSH : Nat := 2
/-- `REQ_OP_DISCARD` -/
def REQ_OP_DISCARD : Nat := 3

/-- `DM_MAPIO_SUBMITTED` -/
def DM_MAPIO_SUBMITTED : Int := 0
/-- `DM_MAPIO_REMAPPED` -/
def DM_MAPIO_REMAPPED : Int := 1

/-- `UDS_SUCCESS` -/
def UDS_SUCCESS : Int := 0
/-- `VDO_SUCCESS` -/
def VDO_SUCCESS : Int := 0
/-- `-EINVAL` -/
def NEG_EINVAL : Int := -22
/-- `-EIO` -/
def EIO_NEG : Int := -5
/-- `VDO_PARAMETER_MISMATCH` (an internal status code, >= 1024) -/
def VDO_PARAMETER_MISMATCH : Int := 1481

/-! ## Bios

A `bio` as the kernel layer observes it: the request operation
(`bio_op(bio)`), the payload size (`bio->bi_iter.bi_size`) and whether
`REQ_PREFLUSH` is set in `bio->bi_opf`. -/

structure Bio where
  op : Nat
  size : Nat
  preflush : Bool
  deriving DecidableEq, Repr

/-- `check_bio_validity` (kernelLayer.c): rejects operations other than
READ/WRITE/FLUSH/DISCARD; flush bios (FLUSH op or `REQ_PREFLUSH` set) must
be empty; all other bios must be non-empty.  Returns `UDS_SUCCESS` or
`-EINVAL`. -/
def check_bio_validity (bio : Bio) : Int :=
  if (bio.op ≠ REQ_OP_READ) ∧ (bio.op ≠ REQ_OP_WRITE) ∧
     (bio.op ≠ REQ_OP_FLUSH) ∧ (bio.op ≠ REQ_OP_DISCARD) then
    NEG_EINVAL
  else
    -- is_empty = (bio->bi_iter.bi_size == 0)
    if (bio.op = REQ_OP_FLUSH) ∨ bio.preflush then
      -- ASSERT_WITH_ERROR_CODE(is_empty, -EINVAL, ...)
      if bio.size = 0 then UDS_SUCCESS else NEG_EINVAL
    else
      -- ASSERT_WITH_ERROR_CODE(!is_empty, -EINVAL, ...)
      if bio.size ≠ 0 then UDS_SUCCESS else NEG_EINVAL

end Kvdo

namespace Kvdo

/-- C3: the classifier rejects exactly the requests whose operation is
outside {READ, WRITE, FLUSH, DISCARD}, or that are flush-like
(FLUSH op or pre-flush marker) with nonzero payload, or data-like
(READ/WRITE/DISCARD without pre-flush) with zero payload; every other
request is accepted. -/
theorem check_bio_validity_spec (bio : Bio) :
    (check_bio_validity bio = NEG_EINVAL ↔
      ((bio.op ≠ REQ_OP_READ ∧ bio.op ≠ REQ_OP_WRITE ∧
        bio.op ≠ REQ_OP_FLUSH ∧ bio.op ≠ REQ_OP_DISCARD) ∨
       ((bio.op = REQ_OP_FLUSH ∨ bio.preflush) ∧ bio.size ≠ 0) ∨
       ((bio.op = REQ_OP_READ ∨ bio.op = REQ_OP_WRITE ∨
         bio.op = REQ_OP_DISCARD) ∧ ¬bio.preflush ∧ bio.size = 0))) ∧
    (check_bio_validity bio ≠ NEG_EINVAL →
      check_bio_validity bio = UDS_SUCCESS) := by
  unfold check_bio_validity
  rcases bio with ⟨op, size, preflush⟩
  simp only [REQ_OP_READ, REQ_OP_WRITE, REQ_OP_FLUSH, REQ_OP_DISCARD,
    UDS_SUCCESS, NEG_EINVAL]
  by_cases h0 : op = 0 <;> by_cases h1 : op = 1 <;> by_cases h2 : op = 2 <;>
    by_cases h3 : op = 3 <;> by_cases hp : preflush = true <;>
    by_cases hs : size = 0 <;>
    simp_all

end Kvdo

namespace Kvdo

/-! ## Limiter and deadlock queue

`limiter.c` is not among the sampled sources; only its interface is.
The limiter state needed here is the pair of the number of outstanding
permits and the limit. -/

/-- Modelled from the spec: the Limiter of section 4.A (`limiter.c` is
not among the sampled files).  `active` permits are outstanding out of
`limit`. -/
structure Limiter where
  active : Nat
  limit : Nat
  deriving DecidableEq, Repr

/-- Modelled from the spec: `acquire_poll()` / `limiter_poll` —
non-blocking decrement of the free count; returns true iff capacity was
available. -/
def limiter_poll (l : Limiter) : Bool × Limiter :=
  if l.active < l.limit then (true, { l with active := l.active + 1 })
  else (false, l)

/-- Modelled from the spec: `is_idle()` — true iff no permits are
outstanding. -/
def limiter_is_idle (l : Limiter) : Bool :=
  l.active = 0

/-- Modelled from the spec: the state effect of
`limiter_wait_for_one_free` (blocking acquire): after possibly parking,
one more permit is outstanding.  The act of blocking is recorded
separately as a trace event. -/
def limiter_acquire_blocking (l : Limiter) : Limiter :=
  { l with active := l.active + 1 }

/-- Modelled from the spec: `release_many(n)` — return `n` permits. -/
def limiter_release_many (l : Limiter) (n : Nat) : Limiter :=
  { l with active := l.active - n }

/-- The deadlock queue (`deadlockQueue.h`): a FIFO of deferred bios plus
one shared arrival timestamp for the whole queue. -/
structure DeadlockQueue where
  list : List Bio
  arrival_time : Nat
  deriving DecidableEq, Repr

/-- `initialize_deadlock_queue`: empty list, zeroed timestamp. -/
def initialize_deadlock_queue : DeadlockQueue :=
  { list := [], arrival_time := 0 }

/-- Modelled from the spec: `add_to_deadlock_queue` (its implementation
file `deadlockQueue.c` is not among the sampled sources, only its
declaration).  Per section 4.B, when the queue transitions from empty to
non-empty the provided arrival timestamp is stored; subsequent pushes do
not update it; the bio is appended FIFO. -/
def add_to_deadlock_queue (q : DeadlockQueue) (bio : Bio)
    (arrival_time : Nat) : DeadlockQueue :=
  { list := q.list ++ [bio],
    arrival_time := if q.list.isEmpty then arrival_time
                    else q.arrival_time }

/-- `poll_deadlock_queue` (deadlockQueue.h): pop the head bio, if any,
and copy out the shared arrival timestamp.  The stored timestamp field
itself is not written. -/
def poll_deadlock_queue (q : DeadlockQueue) :
    Option (Bio × Nat) × DeadlockQueue :=
  match q.list with
  | [] => (none, q)
  | bio :: rest => (some (bio, q.arrival_time), { q with list := rest })

end Kvdo

namespace Kvdo

/-! ## Kernel layer state and events -/

/-- `kernel_layer_state` (kernelLayer.h). -/
inductive LayerState where
  | simpleThingsInitialized
  | bufferPoolsInitialized
  | requestQueueInitialized
  | bioDataInitialized
  | bioAckQueueInitialized
  | cpuQueueInitialized
  | starting
  | running
  | suspended
  | resuming
  | stopping
  | stopped
  deriving DecidableEq, Repr

/-- Observable actions of the kernel layer: statistics updates, log
messages, calls into the engine (kvdo), the dedupe index, the limiters
and the host block layer. -/
inductive Ev where
  | countBiosIn (bio : Bio)
  | countBiosAcknowledged (bio : Bio)
  | flushOutInc
  | launchKvdoFlush (bio : Bio)
  | remapToBacking (bio : Bio)
  | logAssertNotRunning (s : LayerState)
  | logVdoThreadWarning
  | logDeadlockQueued
  | pushDeadlock (bio : Bio) (arrival : Nat)
  | discardBlockingAcquire
  | requestBlockingAcquire
  | launchDataKvio (bio : Bio) (arrival : Nat) (hasDiscardPermit : Bool)
  | completeBio (bio : Bio) (result : Int)
  | releaseMany (n : Nat)
  | setCompressing (enable : Bool)
  | limiterWaitIdle
  | syncFlush
  | setReadOnly (code : Int)
  | suspendKvdoCall
  | suspendDedupe (save : Bool)
  | resumeDedupeCall
  | resumeKvdoCall
  | prepareResizeLogical (blocks : Nat)
  | prepareResizePhysical (blocks : Nat)
  | logBadState (s : LayerState)
  deriving DecidableEq, Repr

/-- The kernel layer fields the embedded operations read or write. -/
structure KernelLayer where
  /-- stands in for the layer's identity (pointer), compared against the
  owner of the current work queue -/
  id : Nat
  state : LayerState
  request_limiter : Limiter
  discard_limiter : Limiter
  deadlock_queue : DeadlockQueue
  /-- whether the kvdo packer is currently compressing -/
  compressing : Bool
  /-- the `no_flush_suspend` flag set by the dmsetup suspend call -/
  no_flush_suspend : Bool
  /-- the `flushOut` statistics counter -/
  flushOut : Nat
  deriving DecidableEq, Repr

/-! ## Request submission (`kvdo_map_bio`) -/

/-- `launch_data_kvio_from_vdo_thread` (kernelLayer.c): the non-blocking
submission path used when running on one of this layer's own worker
threads.  Polls the request limiter; on failure defers the bio to the
deadlock queue and reports `DM_MAPIO_SUBMITTED`; on success polls the
discard limiter best-effort for discards and launches the data kvio.
`launchResult` is the result returned by
`kvdo_launch_data_kvio_from_bio`. -/
def launch_data_kvio_from_vdo_thread (layer : KernelLayer) (bio : Bio)
    (arrival_time : Nat) (launchResult : Int) :
    Int × KernelLayer × List Ev :=
  let evs : List Ev := [.logVdoThreadWarning]
  let (ok, rl) := limiter_poll layer.request_limiter
  if ¬ok then
    (DM_MAPIO_SUBMITTED,
     { layer with deadlock_queue :=
         add_to_deadlock_queue layer.deadlock_queue bio arrival_time },
     evs ++ [.pushDeadlock bio arrival_time, .logDeadlockQueued])
  else
    let layer1 := { layer with request_limiter := rl }
    let pd :=
      if bio.op = REQ_OP_DISCARD then limiter_poll layer1.discard_limiter
      else (false, layer1.discard_limiter)
    let layer2 := { layer1 with discard_limiter := pd.2 }
    let evs2 := evs ++ [.launchDataKvio bio arrival_time pd.1]
    -- succeed or fail, kvdo_launch_data_kvio_from_bio owns the permits now
    if launchResult ≠ VDO_SUCCESS then (launchResult, layer2, evs2)
    else (DM_MAPIO_SUBMITTED, layer2, evs2)

/-- `kvdo_map_bio` (kernelLayer.c).  `currentWorkQueueOwner` is the owner
of `get_current_work_queue()` if the calling thread is a work-queue
thread; `shouldProcessFlush` is `should_process_flush(layer)`;
`launchResult` the result of `kvdo_launch_data_kvio_from_bio`. -/
def kvdo_map_bio (layer : KernelLayer) (bio : Bio) (arrival_time : Nat)
    (currentWorkQueueOwner : Option Nat) (shouldProcessFlush : Bool)
    (launchResult : Int) : Int × KernelLayer × List Ev :=
  -- ASSERT_LOG_ONLY(state == LAYER_RUNNING, ...): log only, no rejection
  let evs : List Ev :=
    (if layer.state ≠ .running then [.logAssertNotRunning layer.state]
     else []) ++ [.countBiosIn bio]
  let r := check_bio_validity bio
  if r ≠ UDS_SUCCESS then (r, layer, evs)
  else if (bio.op = REQ_OP_FLUSH) ∨ bio.preflush then
    if shouldProcessFlush then
      (DM_MAPIO_SUBMITTED, layer, evs ++ [.launchKvdoFlush bio])
    else
      (DM_MAPIO_REMAPPED, { layer with flushOut := layer.flushOut + 1 },
       evs ++ [.countBiosAcknowledged bio, .flushOutInc,
               .remapToBacking bio])
  else if currentWorkQueueOwner = some layer.id then
    let out := launch_data_kvio_from_vdo_thread layer bio arrival_time
                 launchResult
    (out.1, out.2.1, evs ++ out.2.2)
  else
    let (layer1, evs1) :=
      if bio.op = REQ_OP_DISCARD then
        ({ layer with discard_limiter :=
             limiter_acquire_blocking layer.discard_limiter },
         evs ++ [.discardBlockingAcquire])
      else (layer, evs)
    let hasDiscardPermit := bio.op = REQ_OP_DISCARD
    let layer2 := { layer1 with request_limiter :=
        limiter_acquire_blocking layer1.request_limiter }
    let evs2 := evs1 ++ [.requestBlockingAcquire,
                         .launchDataKvio bio arrival_time hasDiscardPermit]
    if launchResult ≠ VDO_SUCCESS then (launchResult, layer2, evs2)
    else (DM_MAPIO_SUBMITTED, layer2, evs2)

/-- Events at which the caller may block (the blocking limiter
acquisitions of the normal path). -/
def isBlockingEv : Ev → Bool
  | .discardBlockingAcquire => true
  | .requestBlockingAcquire => true
  | _ => false

/-- A valid data request: READ, WRITE or DISCARD, no pre-flush marker,
accepted by `check_bio_validity`. -/
def isValidDataBio (bio : Bio) : Prop :=
  (bio.op = REQ_OP_READ ∨ bio.op = REQ_OP_WRITE ∨
   bio.op = REQ_OP_DISCARD) ∧
  bio.preflush = false ∧ check_bio_validity bio = UDS_SUCCESS

/-- The reentrancy property of `kvdo_map_bio` on a valid data request:
the trace is free of blocking events iff the current work queue is owned
by this layer, and on that path a failed limiter poll defers the bio to
the deadlock queue with its arrival time and reports
`DM_MAPIO_SUBMITTED`. -/
def ReentrancyProp (layer : KernelLayer) (bio : Bio) (t : Nat)
    (cwq : Option Nat) (spf : Bool) (lr : Int) : Prop :=
  (((kvdo_map_bio layer bio t cwq spf lr).2.2.all
      fun e => !isBlockingEv e) = true ↔ cwq = some layer.id) ∧
  (cwq = some layer.id →
    layer.request_limiter.limit ≤ layer.request_limiter.active →
    (kvdo_map_bio layer bio t cwq spf lr).1 = DM_MAPIO_SUBMITTED ∧
    Ev.pushDeadlock bio t ∈ (kvdo_map_bio layer bio t cwq spf lr).2.2 ∧
    (kvdo_map_bio layer bio t cwq spf lr).2.1.deadlock_queue =
      add_to_deadlock_queue layer.deadlock_queue bio t)

end Kvdo

namespace Kvdo

/-- C1: for every valid data request (READ, WRITE or DISCARD), submit
takes the non-blocking path iff the current thread runs on a work queue
owned by this layer; on that path the request limiter is polled, and if
the poll fails the bio is pushed onto the deadlock queue with its
arrival time and `DM_MAPIO_SUBMITTED` is returned — so submit never
blocks when called from one of this layer's worker threads. -/
theorem kvdo_map_bio_reentrancy
    (layer : KernelLayer) (bio : Bio) (t : Nat) (cwq : Option Nat)
    (spf : Bool) (lr : Int) (h : isValidDataBio bio) :
    ReentrancyProp layer bio t cwq spf lr := by
  obtain ⟨hop, hpf, hvalid⟩ := h
  have hnf : ¬(bio.op = REQ_OP_FLUSH ∨ bio.preflush = true) := by
    rcases hop with h | h | h <;>
      simp [h, hpf, REQ_OP_READ, REQ_OP_WRITE, REQ_OP_DISCARD, REQ_OP_FLUSH]
  unfold ReentrancyProp kvdo_map_bio launch_data_kvio_from_vdo_thread
  simp only [limiter_poll, limiter_acquire_blocking]
  by_cases hst : layer.state = LayerState.running <;>
  split_ifs <;>
  simp_all [isBlockingEv, REQ_OP_READ, REQ_OP_WRITE, REQ_OP_FLUSH,
    REQ_OP_DISCARD, UDS_SUCCESS, VDO_SUCCESS, DM_MAPIO_SUBMITTED]

/-- Witness for C1 at a concrete input: a 4 KiB write submitted from the
layer's own worker thread while the request limiter is full. -/
theorem kvdo_map_bio_reentrancy_witness :
    isValidDataBio ⟨REQ_OP_WRITE, 4096, false⟩ ∧
    ReentrancyProp
      { id := 5, state := .running,
        request_limiter := ⟨2, 2⟩, discard_limiter := ⟨0, 1⟩,
        deadlock_queue := ⟨[], 0⟩, compressing := true,
        no_flush_suspend := false, flushOut := 0 }
      ⟨REQ_OP_WRITE, 4096, false⟩ 7 (some 5) true 0 :=
  ⟨by unfold isValidDataBio check_bio_validity; decide,
   kvdo_map_bio_reentrancy _ _ _ _ _ _
     (by unfold isValidDataBio check_bio_validity; decide)⟩

/-- C2 counterexample: a valid 4 KiB write submitted while the layer is
SUSPENDED is not rejected — `kvdo_map_bio` only logs an assertion and
processes it, returning `DM_MAPIO_SUBMITTED` (0), not an error. -/
theorem kvdo_map_bio_suspended_not_rejected :
    (kvdo_map_bio
      { id := 5, state := .suspended, request_limiter := ⟨0, 2000⟩,
        discard_limiter := ⟨0, 1500⟩, deadlock_queue := ⟨[], 0⟩,
        compressing := true, no_flush_suspend := false, flushOut := 0 }
      ⟨REQ_OP_WRITE, 4096, false⟩ 7 none true VDO_SUCCESS).1 =
      DM_MAPIO_SUBMITTED ∧
    ¬((kvdo_map_bio
      { id := 5, state := .suspended, request_limiter := ⟨0, 2000⟩,
        discard_limiter := ⟨0, 1500⟩, deadlock_queue := ⟨[], 0⟩,
        compressing := true, no_flush_suspend := false, flushOut := 0 }
      ⟨REQ_OP_WRITE, 4096, false⟩ 7 none true VDO_SUCCESS).1 < 0) := by
  constructor <;> decide

set_option maxHeartbeats 2000000 in
/-- C2 (amended): `kvdo_map_bio` does not reject requests based on the
layer state: its result and behaviour are exactly those of the RUNNING
state, except that when the state is not RUNNING an assertion failure is
logged first (`ASSERT_LOG_ONLY` is log-only). -/
theorem kvdo_map_bio_state_only_logged
    (layer : KernelLayer) (bio : Bio) (t : Nat) (cwq : Option Nat)
    (spf : Bool) (lr : Int) :
    (kvdo_map_bio layer bio t cwq spf lr).1 =
      (kvdo_map_bio { layer with state := .running } bio t cwq spf
        lr).1 ∧
    (kvdo_map_bio layer bio t cwq spf lr).2.1 =
      { (kvdo_map_bio { layer with state := .running } bio t cwq spf
          lr).2.1 with state := layer.state } ∧
    (layer.state ≠ .running →
      (kvdo_map_bio layer bio t cwq spf lr).2.2 =
        Ev.logAssertNotRunning layer.state ::
          (kvdo_map_bio { layer with state := .running } bio t cwq spf
            lr).2.2) := by
  obtain ⟨lid, lstate, lrl, ldl, ldq, lc, lnf, lfo⟩ := layer
  unfold kvdo_map_bio launch_data_kvio_from_vdo_thread
  simp only [limiter_poll, limiter_acquire_blocking]
  by_cases hv : check_bio_validity bio = UDS_SUCCESS <;>
  by_cases hst : lstate = LayerState.running <;>
  split_ifs <;>
  simp_all

/-- Witness for the amended C2 at a concrete input: a write submitted in
SUSPENDED state behaves as in RUNNING, with the assertion logged. -/
theorem kvdo_map_bio_state_only_logged_witness :
    (kvdo_map_bio
      { id := 5, state := .suspended, request_limiter := ⟨0, 2000⟩,
        discard_limiter := ⟨0, 1500⟩, deadlock_queue := ⟨[], 0⟩,
        compressing := true, no_flush_suspend := false, flushOut := 0 }
      ⟨REQ_OP_WRITE, 4096, false⟩ 7 none true VDO_SUCCESS).1 =
      (kvdo_map_bio
        { id := 5, state := .running, request_limiter := ⟨0, 2000⟩,
          discard_limiter := ⟨0, 1500⟩, deadlock_queue := ⟨[], 0⟩,
          compressing := true, no_flush_suspend := false, flushOut := 0 }
        ⟨REQ_OP_WRITE, 4096, false⟩ 7 none true VDO_SUCCESS).1 ∧
    LayerState.suspended ≠ LayerState.running := by
  refine ⟨(kvdo_map_bio_state_only_logged
    { id := 5, state := .suspended, request_limiter := ⟨0, 2000⟩,
      discard_limiter := ⟨0, 1500⟩, deadlock_queue := ⟨[], 0⟩,
      compressing := true, no_flush_suspend := false, flushOut := 0 }
    ⟨REQ_OP_WRITE, 4096, false⟩ 7 none true VDO_SUCCESS).1, by decide⟩

end Kvdo


namespace Kvdo

/-! ## Suspend and resume -/

/-- `wait_for_no_requests_active` (kernelLayer.c): if the request
limiter is already idle, do nothing; otherwise turn off compression
(flushing the packer), wait for the limiter to go idle, and restore
compression iff it was on.  The limiter state after the wait returns is
idle. -/
def wait_for_no_requests_active (layer : KernelLayer) :
    KernelLayer × List Ev :=
  if limiter_is_idle layer.request_limiter then (layer, [])
  else
    let was_compressing := layer.compressing
    let layer2 : KernelLayer :=
      { layer with
        compressing := false,
        request_limiter := { layer.request_limiter with active := 0 } }
    if was_compressing then
      ({ layer2 with compressing := true },
       [.setCompressing false, .limiterWaitIdle, .setCompressing true])
    else
      (layer2, [.setCompressing false, .limiterWaitIdle])

/-- `synchronous_flush` (kernelLayer.c): issue one synchronous
write-preflush bio to the backing device; bump `flushOut`; map any
nonzero completion status to `-EIO`.  `flushResult` is
`blk_status_to_errno(bio.bi_status)`. -/
def synchronous_flush (layer : KernelLayer) (flushResult : Int) :
    Int × KernelLayer × List Ev :=
  let layer1 := { layer with flushOut := layer.flushOut + 1 }
  if flushResult ≠ 0 then (EIO_NEG, layer1, [.syncFlush, .flushOutInc])
  else (flushResult, layer1, [.syncFlush, .flushOutInc])

/-- `suspend_kernel_layer` (kernelLayer.c).  `flushResult` is the
completion status of the synchronous flush bio; `suspendKvdoResult` the
result of `suspend_kvdo`. -/
def suspend_kernel_layer (layer : KernelLayer) (flushResult : Int)
    (suspendKvdoResult : Int) : Int × KernelLayer × List Ev :=
  if layer.state = .suspended then (VDO_SUCCESS, layer, [])
  else if layer.state ≠ .running then
    (NEG_EINVAL, layer, [.logBadState layer.state])
  else
    let w := wait_for_no_requests_active layer
    let f := synchronous_flush w.1 flushResult
    let result := f.1
    let evs3 : List Ev :=
      if result ≠ VDO_SUCCESS then [.setReadOnly result] else []
    -- suspend_kvdo; keep the first error
    let result2 := if result = VDO_SUCCESS then suspendKvdoResult
                   else result
    (result2, { f.2.1 with state := .suspended },
     w.2 ++ f.2.2 ++ evs3 ++
       [.suspendKvdoCall, .suspendDedupe (!layer.no_flush_suspend)])

/-- `resume_kernel_layer` (kernelLayer.c).  `resumeKvdoResult` is the
result of `resume_kvdo`. -/
def resume_kernel_layer (layer : KernelLayer) (resumeKvdoResult : Int) :
    Int × KernelLayer × List Ev :=
  if layer.state = .running then (VDO_SUCCESS, layer, [])
  else
    let evs : List Ev := [.resumeDedupeCall, .resumeKvdoCall]
    if resumeKvdoResult ≠ VDO_SUCCESS then (resumeKvdoResult, layer, evs)
    else (VDO_SUCCESS, { layer with state := .running }, evs)

/-- The suspend contract of C4 for a RUNNING layer with requests in
flight: the exact trace (compression off, idle wait, compression
restored iff previously on, one synchronous preflush, read-only on
flush failure with the failure mapped to `-EIO`, engine suspend, dedupe
suspend with save = ¬no-flush), the final state SUSPENDED, and exactly
one flush. -/
def SuspendOrderProp (layer : KernelLayer) (fr sr : Int) : Prop :=
  (suspend_kernel_layer layer fr sr).2.2 =
    ([.setCompressing false, .limiterWaitIdle] ++
     (if layer.compressing then [Ev.setCompressing true] else []) ++
     [.syncFlush, .flushOutInc] ++
     (if fr ≠ 0 then [Ev.setReadOnly EIO_NEG] else []) ++
     [.suspendKvdoCall, .suspendDedupe (!layer.no_flush_suspend)]) ∧
  (suspend_kernel_layer layer fr sr).2.1.state = .suspended ∧
  ((suspend_kernel_layer layer fr sr).2.2.count Ev.syncFlush = 1)

end Kvdo

namespace Kvdo

/-- C4: when suspend is invoked on a RUNNING layer with requests still
in flight, it disables compression packing before waiting for the
request limiter to go idle and restores it afterward iff it was on;
then issues exactly one synchronous write-preflush, mapping failure to
`-EIO` and entering read-only mode on failure; then suspends the
engine; then suspends the dedupe index with save = ¬no-flush; and
finally sets the state to SUSPENDED. -/
theorem suspend_kernel_layer_order (layer : KernelLayer) (fr sr : Int)
    (hrun : layer.state = .running)
    (hbusy : limiter_is_idle layer.request_limiter = false) :
    SuspendOrderProp layer fr sr := by
  unfold SuspendOrderProp suspend_kernel_layer wait_for_no_requests_active
    synchronous_flush
  by_cases hc : layer.compressing = true <;>
  by_cases hfr : fr = 0 <;>
  simp_all [VDO_SUCCESS, EIO_NEG, List.count_cons, List.count_append]

/-- Witness for C4 at a concrete input: a running layer with one
outstanding request, compression on, and a failing flush. -/
theorem suspend_kernel_layer_order_witness :
    ({ id := 5, state := .running, request_limiter := ⟨1, 2000⟩,
       discard_limiter := ⟨0, 1500⟩, deadlock_queue := ⟨[], 0⟩,
       compressing := true, no_flush_suspend := false,
       flushOut := 0 } : KernelLayer).state = LayerState.running ∧
    limiter_is_idle
      ({ id := 5, state := .running, request_limiter := ⟨1, 2000⟩,
         discard_limiter := ⟨0, 1500⟩, deadlock_queue := ⟨[], 0⟩,
         compressing := true, no_flush_suspend := false,
         flushOut := 0 } : KernelLayer).request_limiter = false ∧
    SuspendOrderProp
      { id := 5, state := .running, request_limiter := ⟨1, 2000⟩,
        discard_limiter := ⟨0, 1500⟩, deadlock_queue := ⟨[], 0⟩,
        compressing := true, no_flush_suspend := false, flushOut := 0 }
      (-5) 0 :=
  ⟨rfl, by decide,
   suspend_kernel_layer_order _ (-5) 0 rfl (by decide)⟩

/-- C9: suspend on an already-SUSPENDED layer and resume on an
already-RUNNING layer return success immediately, make no engine,
dedupe or flush calls, and leave the layer unchanged. -/
theorem suspend_resume_idempotent (layer : KernelLayer)
    (fr sr rr : Int) :
    (layer.state = .suspended →
      suspend_kernel_layer layer fr sr = (VDO_SUCCESS, layer, [])) ∧
    (layer.state = .running →
      resume_kernel_layer layer rr = (VDO_SUCCESS, layer, [])) := by
  unfold suspend_kernel_layer resume_kernel_layer
  constructor <;> intro h <;> simp [h]

/-- Witness for C9 at concrete inputs: a suspended layer and a running
layer. -/
theorem suspend_resume_idempotent_witness :
    suspend_kernel_layer
      { id := 5, state := .suspended, request_limiter := ⟨1, 2000⟩,
        discard_limiter := ⟨0, 1500⟩, deadlock_queue := ⟨[], 0⟩,
        compressing := true, no_flush_suspend := false, flushOut := 0 }
      (-5) 0 =
      (VDO_SUCCESS,
       { id := 5, state := .suspended, request_limiter := ⟨1, 2000⟩,
         discard_limiter := ⟨0, 1500⟩, deadlock_queue := ⟨[], 0⟩,
         compressing := true, no_flush_suspend := false, flushOut := 0 },
       []) ∧
    resume_kernel_layer
      { id := 5, state := .running, request_limiter := ⟨1, 2000⟩,
        discard_limiter := ⟨0, 1500⟩, deadlock_queue := ⟨[], 0⟩,
        compressing := true, no_flush_suspend := false, flushOut := 0 }
      7 =
      (VDO_SUCCESS,
       { id := 5, state := .running, request_limiter := ⟨1, 2000⟩,
         discard_limiter := ⟨0, 1500⟩, deadlock_queue := ⟨[], 0⟩,
         compressing := true, no_flush_suspend := false, flushOut := 0 },
       []) :=
  ⟨(suspend_resume_idempotent _ (-5) 0 7).1 rfl,
   (suspend_resume_idempotent _ (-5) 0 7).2 rfl⟩

end Kvdo

namespace Kvdo

/-! ## Completion path (`complete_many_requests`) -/

/-- The loop of `complete_many_requests` (kernelLayer.c): pop deferred
bios from the deadlock queue, relaunching each (polling the discard
limiter best-effort for discards, completing the bio on launch failure),
until `count` reaches zero or the queue is empty; returns the remaining
count.  `lr` gives the result of `kvdo_launch_data_kvio_from_bio` for
each relaunched bio. -/
def complete_many_requests_loop (lr : Bio → Int) :
    KernelLayer → Nat → KernelLayer × Nat × List Ev
  | layer, 0 => (layer, 0, [])
  | layer, n + 1 =>
    let p := poll_deadlock_queue layer.deadlock_queue
    match p.1 with
    | none => ({ layer with deadlock_queue := p.2 }, n + 1, [])
    | some (bio, arrival) =>
      let layer1 := { layer with deadlock_queue := p.2 }
      let pd := if bio.op = REQ_OP_DISCARD
                then limiter_poll layer1.discard_limiter
                else (false, layer1.discard_limiter)
      let layer2 := { layer1 with discard_limiter := pd.2 }
      let res := lr bio
      let evs := Ev.launchDataKvio bio arrival pd.1 ::
                 (if res ≠ VDO_SUCCESS then [Ev.completeBio bio res]
                  else [])
      let rest := complete_many_requests_loop lr layer2 n
      (rest.1, rest.2.1, evs ++ rest.2.2)

/-- `complete_many_requests` (kernelLayer.c): drain up to `count`
deferred bios from the deadlock queue, then release any remaining count
back to the request limiter via `limiter_release_many`. -/
def complete_many_requests (layer : KernelLayer) (lr : Bio → Int)
    (count : Nat) : KernelLayer × List Ev :=
  let out := complete_many_requests_loop lr layer count
  if out.2.1 > 0 then
    ({ out.1 with request_limiter :=
        limiter_release_many out.1.request_limiter out.2.1 },
     out.2.2 ++ [.releaseMany out.2.1])
  else (out.1, out.2.2)

/-- The bios carried by the `launchDataKvio` events of a trace, in trace
order. -/
def launchedBios : List Ev → List Bio
  | [] => []
  | .launchDataKvio bio _ _ :: rest => bio :: launchedBios rest
  | _ :: rest => launchedBios rest

/-- The behaviour `complete_batch(n)` must have per C5: it relaunches
exactly the first `min n (queue length)` deferred bios in queue order,
leaves the rest queued, releases `n - popped` permits exactly when that
difference is positive (and releases nothing otherwise), and never
blocks. -/
def CompleteBatchProp (layer : KernelLayer) (lr : Bio → Int)
    (count : Nat) : Prop :=
  launchedBios (complete_many_requests layer lr count).2 =
    layer.deadlock_queue.list.take
      (min count layer.deadlock_queue.list.length) ∧
  (complete_many_requests layer lr count).1.deadlock_queue.list =
    layer.deadlock_queue.list.drop
      (min count layer.deadlock_queue.list.length) ∧
  (layer.deadlock_queue.list.length < count →
    ((complete_many_requests layer lr count).2.count
      (Ev.releaseMany (count - layer.deadlock_queue.list.length)) = 1) ∧
    (complete_many_requests layer lr count).1.request_limiter =
      limiter_release_many layer.request_limiter
        (count - layer.deadlock_queue.list.length)) ∧
  (count ≤ layer.deadlock_queue.list.length →
    ∀ n, Ev.releaseMany n ∉ (complete_many_requests layer lr count).2) ∧
  (∀ e ∈ (complete_many_requests layer lr count).2,
    isBlockingEv e = false)

/-- `launchedBios` distributes over trace concatenation. -/
theorem launchedBios_append (xs ys : List Ev) :
    launchedBios (xs ++ ys) = launchedBios xs ++ launchedBios ys := by
  induction xs with
  | nil => rfl
  | cons x rest ih => cases x <;> simp [launchedBios, ih]

/-- Invariants of the drain loop, proved by induction on the count. -/
theorem complete_many_requests_loop_spec (lr : Bio → Int) :
    ∀ (count : Nat) (layer : KernelLayer),
    launchedBios (complete_many_requests_loop lr layer count).2.2 =
      layer.deadlock_queue.list.take
        (min count layer.deadlock_queue.list.length) ∧
    (complete_many_requests_loop lr layer count).1.deadlock_queue.list =
      layer.deadlock_queue.list.drop
        (min count layer.deadlock_queue.list.length) ∧
    (complete_many_requests_loop lr layer count).2.1 =
      count - min count layer.deadlock_queue.list.length ∧
    (complete_many_requests_loop lr layer count).1.request_limiter =
      layer.request_limiter ∧
    (∀ n, Ev.releaseMany n ∉
      (complete_many_requests_loop lr layer count).2.2) ∧
    (∀ e ∈ (complete_many_requests_loop lr layer count).2.2,
      isBlockingEv e = false) := by
  intro count
  induction count with
  | zero =>
    intro layer
    simp [complete_many_requests_loop, launchedBios]
  | succ n ih =>
    intro layer
    rcases hq : layer.deadlock_queue.list with _ | ⟨bio, rest⟩
    · simp [complete_many_requests_loop, poll_deadlock_queue, hq,
        launchedBios]
    · have ih2 := ih { layer with
        deadlock_queue := { layer.deadlock_queue with list := rest },
        discard_limiter :=
          (if bio.op = REQ_OP_DISCARD
           then limiter_poll layer.discard_limiter
           else (false, layer.discard_limiter)).2 }
      by_cases hres : lr bio = VDO_SUCCESS <;>
      simp_all [complete_many_requests_loop, poll_deadlock_queue, hq,
        launchedBios, isBlockingEv, Nat.succ_min_succ, List.take_succ_cons,
        List.drop_succ_cons, Nat.succ_sub_succ]

end Kvdo

namespace Kvdo

/-- C5: for every `n > 0`, `complete_many_requests` pops
`min n (queue length)` deferred bios from the deadlock queue in queue
order, relaunches each without blocking, and then releases exactly
`n - popped` permits back to the request limiter precisely when that
difference is positive. -/
theorem complete_many_requests_spec (layer : KernelLayer)
    (lr : Bio → Int) (count : Nat) (hpos : 0 < count) :
    CompleteBatchProp layer lr count := by
  have hloop := complete_many_requests_loop_spec lr count layer
  obtain ⟨h1, h2, h3, h4, h5, h6⟩ := hloop
  unfold CompleteBatchProp complete_many_requests
  by_cases hrem :
      (complete_many_requests_loop lr layer count).2.1 > 0
  · have hlt : layer.deadlock_queue.list.length < count ∨
        count ≤ layer.deadlock_queue.list.length := by omega
    simp only [if_pos hrem]
    refine ⟨?_, ?_, ?_, ?_, ?_⟩
    · simp [launchedBios_append, launchedBios, h1]
    · simpa using h2
    · intro hlen
      have hmin : min count layer.deadlock_queue.list.length =
          layer.deadlock_queue.list.length := by omega
      constructor
      · rw [List.count_append]
        have : Ev.releaseMany
            (count - layer.deadlock_queue.list.length) ∉
            (complete_many_requests_loop lr layer count).2.2 := h5 _
        simp_all [List.count_eq_zero_of_not_mem this]
      · rw [h4, h3, hmin]
    · intro hlen
      -- count ≤ length means remaining = 0, contradicting hrem
      rw [h3] at hrem
      omega
    · intro e he
      rcases List.mem_append.mp he with h | h
      · exact h6 e h
      · simp at h
        subst h
        rfl
  · have hrem0 : (complete_many_requests_loop lr layer count).2.1 = 0 :=
      by omega
    have hminc : min count layer.deadlock_queue.list.length = count := by
      rw [h3] at hrem0; omega
    simp only [if_neg hrem]
    refine ⟨h1, h2, ?_, ?_, h6⟩
    · intro hlen
      rw [h3] at hrem0
      omega
    · intro _ n
      exact h5 n

end Kvdo

namespace Kvdo

/-- Witness for C5 at a concrete input: a batch of 3 completions against
a deadlock queue holding 2 deferred writes. -/
theorem complete_many_requests_spec_witness :
    0 < 3 ∧
    CompleteBatchProp
      { id := 5, state := .running, request_limiter := ⟨2000, 2000⟩,
        discard_limiter := ⟨0, 1500⟩,
        deadlock_queue :=
          ⟨[⟨REQ_OP_WRITE, 4096, false⟩, ⟨REQ_OP_READ, 4096, false⟩], 9⟩,
        compressing := true, no_flush_suspend := false, flushOut := 0 }
      (fun _ => VDO_SUCCESS) 3 :=
  ⟨by decide, complete_many_requests_spec _ _ 3 (by decide)⟩

/-! ## Deadlock-queue timestamp behaviour (C6) -/

/-- C6 counterexample: push one bio with arrival time 5 onto an empty
deadlock queue and pop it.  The pop empties the queue, yet the stored
timestamp still holds the old value 5 — `poll_deadlock_queue` never
writes the timestamp field, so it is not cleared on drain. -/
theorem poll_deadlock_queue_not_cleared :
    (poll_deadlock_queue
      (add_to_deadlock_queue initialize_deadlock_queue
        ⟨REQ_OP_WRITE, 4096, false⟩ 5)).2.list = [] ∧
    (poll_deadlock_queue
      (add_to_deadlock_queue initialize_deadlock_queue
        ⟨REQ_OP_WRITE, 4096, false⟩ 5)).2.arrival_time = 5 := by
  constructor <;> rfl

/-- C6 (amended): the shared timestamp is stored when the queue goes
from empty to non-empty, is not updated by subsequent pushes, and is
*retained* (not cleared) by pops — including the pop that empties the
queue; it is only overwritten by the next push to the empty queue. -/
theorem deadlock_queue_timestamp (q : DeadlockQueue) (bio : Bio)
    (t : Nat) :
    (q.list = [] → (add_to_deadlock_queue q bio t).arrival_time = t) ∧
    (q.list ≠ [] →
      (add_to_deadlock_queue q bio t).arrival_time = q.arrival_time) ∧
    (poll_deadlock_queue q).2.arrival_time = q.arrival_time := by
  refine ⟨?_, ?_, ?_⟩
  · intro h
    simp [add_to_deadlock_queue, h]
  · intro h
    simp [add_to_deadlock_queue, h]
  · unfold poll_deadlock_queue
    rcases hq : q.list with _ | ⟨b, rest⟩ <;> simp

/-- Witness for the amended C6 at a concrete input: a queue holding one
bio with timestamp 5, plus a fresh empty queue. -/
theorem deadlock_queue_timestamp_witness :
    (([] : List Bio) = [] →
      (add_to_deadlock_queue ⟨[], 0⟩ ⟨REQ_OP_WRITE, 4096, false⟩
        7).arrival_time = 7) ∧
    (([⟨REQ_OP_READ, 4096, false⟩] : List Bio) ≠ [] →
      (add_to_deadlock_queue ⟨[⟨REQ_OP_READ, 4096, false⟩], 5⟩
        ⟨REQ_OP_WRITE, 4096, false⟩ 7).arrival_time = 5) ∧
    (poll_deadlock_queue
      ⟨[⟨REQ_OP_READ, 4096, false⟩], 5⟩).2.arrival_time = 5 :=
  deadlock_queue_timestamp ⟨[⟨REQ_OP_READ, 4096, false⟩], 5⟩
    ⟨REQ_OP_WRITE, 4096, false⟩ 7 |>.2.1 |> fun h =>
    ⟨fun _ => by rfl, fun _ => h (by decide), by rfl⟩

end Kvdo

namespace Kvdo

/-! ## Configuration modification (C7) -/

/-- `struct thread_count_config` (deviceConfig.h). -/
structure ThreadCountConfig where
  logical_zones : Nat
  physical_zones : Nat
  hash_zones : Nat
  cpu_threads : Nat
  bio_threads : Nat
  bio_ack_threads : Nat
  bio_rotation_interval : Nat
  deriving DecidableEq, Repr

/-- The fields of `struct device_config` that
`prepare_to_modify_kernel_layer` reads.  `owning_target_begin` and
`owning_target_len` stand for `owning_target->begin` / `->len`
(sectors). -/
structure DeviceConfig where
  owning_target_begin : Nat
  owning_target_len : Nat
  parent_device_name : String
  logical_block_size : Nat
  cache_size : Nat
  block_map_maximum_age : Nat
  md_raid5_mode_enabled : Bool
  thread_counts : ThreadCountConfig
  write_policy : Nat
  physical_blocks : Nat
  version : Nat
  deriving DecidableEq, Repr

/-- `VDO_BLOCK_SIZE` -/
def VDO_BLOCK_SIZE : Nat := 4096

/-- `to_bytes` on a device-mapper sector count. -/
def to_bytes (sectors : Nat) : Nat := sectors * 512

/-- `prepare_to_modify_kernel_layer` (kernelLayer.c): reject any change
to an immutable field with `VDO_PARAMETER_MISMATCH` before doing
anything else; then, for a logical-size change, check block alignment
and call `prepare_to_resize_logical`, and for a physical-size change
call `prepare_to_resize_physical` (which remaps
`VDO_PARAMETER_MISMATCH` from the engine to `-EINVAL`).  The layer
itself is never written; the resize preparations are engine calls,
recorded as events.  `prepL`/`prepP` are the engine results of
`kvdo_prepare_to_grow_logical` / `kvdo_prepare_to_grow_physical`. -/
def prepare_to_modify_kernel_layer (layer : KernelLayer)
    (extant config : DeviceConfig) (prepL prepP : Int) :
    Int × KernelLayer × List Ev :=
  if config.owning_target_begin ≠ extant.owning_target_begin then
    (VDO_PARAMETER_MISMATCH, layer, [])
  else if config.parent_device_name ≠ extant.parent_device_name then
    (VDO_PARAMETER_MISMATCH, layer, [])
  else if config.logical_block_size ≠ extant.logical_block_size then
    (VDO_PARAMETER_MISMATCH, layer, [])
  else if config.cache_size ≠ extant.cache_size then
    (VDO_PARAMETER_MISMATCH, layer, [])
  else if config.block_map_maximum_age ≠ extant.block_map_maximum_age
  then
    (VDO_PARAMETER_MISMATCH, layer, [])
  else if config.md_raid5_mode_enabled ≠ extant.md_raid5_mode_enabled
  then
    (VDO_PARAMETER_MISMATCH, layer, [])
  else if config.thread_counts ≠ extant.thread_counts then
    (VDO_PARAMETER_MISMATCH, layer, [])
  else
    -- write_policy change needs nothing at prepare time
    let step1 : Int × List Ev :=
      if config.owning_target_len ≠ extant.owning_target_len then
        let logical_bytes := to_bytes config.owning_target_len
        if logical_bytes % VDO_BLOCK_SIZE ≠ 0 then
          (VDO_PARAMETER_MISMATCH, [])
        else
          (prepL,
           [.prepareResizeLogical (logical_bytes / VDO_BLOCK_SIZE)])
      else (VDO_SUCCESS, [])
    if step1.1 ≠ VDO_SUCCESS then (step1.1, layer, step1.2)
    else if config.physical_blocks ≠ extant.physical_blocks then
      -- prepare_to_resize_physical remaps VDO_PARAMETER_MISMATCH
      let r := if prepP = VDO_PARAMETER_MISMATCH then NEG_EINVAL
               else prepP
      (r, layer,
       step1.2 ++ [.prepareResizePhysical config.physical_blocks])
    else (VDO_SUCCESS, layer, step1.2)

/-- A proposed config differs from the extant one in some immutable
field. -/
def ImmutableMismatch (extant config : DeviceConfig) : Prop :=
  config.owning_target_begin ≠ extant.owning_target_begin ∨
  config.parent_device_name ≠ extant.parent_device_name ∨
  config.logical_block_size ≠ extant.logical_block_size ∨
  config.cache_size ≠ extant.cache_size ∨
  config.block_map_maximum_age ≠ extant.block_map_maximum_age ∨
  config.md_raid5_mode_enabled ≠ extant.md_raid5_mode_enabled ∨
  config.thread_counts ≠ extant.thread_counts

end Kvdo

namespace Kvdo

/-- C7: any attempt to modify an immutable field (starting sector,
parent device, logical block size, cache size, block-map maximum age,
md-raid5 mode, thread counts) is rejected with
`VDO_PARAMETER_MISMATCH`, the layer is unchanged, and no
resize-preparation engine call is made. -/
theorem prepare_to_modify_immutable_rejected (layer : KernelLayer)
    (extant config : DeviceConfig) (prepL prepP : Int)
    (h : ImmutableMismatch extant config) :
    prepare_to_modify_kernel_layer layer extant config prepL prepP =
      (VDO_PARAMETER_MISMATCH, layer, []) := by
  unfold prepare_to_modify_kernel_layer
  rcases h with h | h | h | h | h | h | h <;> simp_all

/-- Witness for C7 at a concrete input: a config differing only in
`logical_block_size`. -/
theorem prepare_to_modify_immutable_rejected_witness :
    ImmutableMismatch
      { owning_target_begin := 0, owning_target_len := 8,
        parent_device_name := "sda", logical_block_size := 512,
        cache_size := 128, block_map_maximum_age := 245,
        md_raid5_mode_enabled := false,
        thread_counts := ⟨1, 1, 1, 1, 4, 1, 64⟩, write_policy := 0,
        physical_blocks := 1000, version := 2 }
      { owning_target_begin := 0, owning_target_len := 8,
        parent_device_name := "sda", logical_block_size := 4096,
        cache_size := 128, block_map_maximum_age := 245,
        md_raid5_mode_enabled := false,
        thread_counts := ⟨1, 1, 1, 1, 4, 1, 64⟩, write_policy := 0,
        physical_blocks := 1000, version := 2 } ∧
    prepare_to_modify_kernel_layer
      { id := 5, state := .suspended, request_limiter := ⟨0, 2000⟩,
        discard_limiter := ⟨0, 1500⟩, deadlock_queue := ⟨[], 0⟩,
        compressing := true, no_flush_suspend := false, flushOut := 0 }
      { owning_target_begin := 0, owning_target_len := 8,
        parent_device_name := "sda", logical_block_size := 512,
        cache_size := 128, block_map_maximum_age := 245,
        md_raid5_mode_enabled := false,
        thread_counts := ⟨1, 1, 1, 1, 4, 1, 64⟩, write_policy := 0,
        physical_blocks := 1000, version := 2 }
      { owning_target_begin := 0, owning_target_len := 8,
        parent_device_name := "sda", logical_block_size := 4096,
        cache_size := 128, block_map_maximum_age := 245,
        md_raid5_mode_enabled := false,
        thread_counts := ⟨1, 1, 1, 1, 4, 1, 64⟩, write_policy := 0,
        physical_blocks := 1000, version := 2 }
      0 0 =
      (VDO_PARAMETER_MISMATCH,
       { id := 5, state := .suspended, request_limiter := ⟨0, 2000⟩,
         discard_limiter := ⟨0, 1500⟩, deadlock_queue := ⟨[], 0⟩,
         compressing := true, no_flush_suspend := false, flushOut := 0 },
       []) :=
  ⟨by unfold ImmutableMismatch; decide,
   prepare_to_modify_immutable_rejected _ _ _ 0 0
     (by unfold ImmutableMismatch; decide)⟩

end Kvdo

namespace Kvdo

/-! ## Block map component codec (blockMapFormat.c, C8)

The buffer and header primitives (`buffer.c`, `header.c`) are not among
the sampled sources; they are modelled here from the spec's description
of the persisted format ("all little-endian packed").  A buffer is a
byte list; decoding consumes from the front. -/

/-- `UDS_BUFFER_ERROR` (buffer underflow). -/
def UDS_BUFFER_ERROR : Int := 1030
/-- `UDS_ASSERTION_FAILED` (result of a failed `ASSERT`). -/
def UDS_ASSERTION_FAILED : Int := 1035
/-- `VDO_INCORRECT_COMPONENT` -/
def VDO_INCORRECT_COMPONENT : Int := 1472
/-- `VDO_UNSUPPORTED_VERSION` -/
def VDO_UNSUPPORTED_VERSION : Int := 1473

/-- Modelled from the spec: little-endian encoding of `v` in `w`
bytes. -/
def toLEBytes : Nat → Nat → List Nat
  | 0, _ => []
  | w + 1, v => (v % 256) :: toLEBytes w (v / 256)

/-- Modelled from the spec: little-endian decoding of a byte list. -/
def fromLEBytes : List Nat → Nat
  | [] => 0
  | b :: rest => b + 256 * fromLEBytes rest

/-- Modelled from the spec: `get_uintN_le_from_buffer` — consume `w`
bytes from the front of the buffer, if available. -/
def getUIntLE (w : Nat) (b : List Nat) : Option (Nat × List Nat) :=
  if w ≤ b.length then some (fromLEBytes (b.take w), b.drop w)
  else none

/-- Modelled from the spec: `put_uintN_le_into_buffer` — append `w`
little-endian bytes. -/
def putUIntLE (w : Nat) (b : List Nat) (v : Nat) : List Nat :=
  b ++ toLEBytes w v

/-- `struct header` (header.h): component id, version, and the size of
the encoded component that follows. -/
structure Header where
  id : Nat
  major_version : Nat
  minor_version : Nat
  size : Nat
  deriving DecidableEq, Repr

/-- The `BLOCK_MAP` component id. -/
def BLOCK_MAP : Nat := 4

/-- `struct block_map_state_2_0` (blockMapFormat.h). -/
structure BlockMapState20 where
  flat_page_origin : Nat
  flat_page_count : Nat
  root_origin : Nat
  root_count : Nat
  deriving DecidableEq, Repr

/-- `BLOCK_MAP_HEADER_2_0` (blockMapFormat.c): id BLOCK_MAP, version
2.0, size = sizeof(struct block_map_state_2_0) = 32. -/
def BLOCK_MAP_HEADER_2_0 : Header :=
  { id := BLOCK_MAP, major_version := 2, minor_version := 0, size := 32 }

/-- `BLOCK_MAP_FLAT_PAGE_ORIGIN` -/
def BLOCK_MAP_FLAT_PAGE_ORIGIN : Nat := 1

/-- Modelled from the spec: `encode_header` (header.c) — the header
packed little-endian: id (u32), major (u32), minor (u32), size (u64),
appended to the buffer. -/
def encode_header (h : Header) (b : List Nat) : List Nat :=
  putUIntLE 8 (putUIntLE 4 (putUIntLE 4 (putUIntLE 4 b h.id)
    h.major_version) h.minor_version) h.size

/-- Modelled from the spec: `decode_header` (header.c) — read id,
major, minor, size from the front of the buffer. -/
def decode_header (b : List Nat) : Except Int (Header × List Nat) :=
  match getUIntLE 4 b with
  | none => .error UDS_BUFFER_ERROR
  | some (id, b1) =>
    match getUIntLE 4 b1 with
    | none => .error UDS_BUFFER_ERROR
    | some (major, b2) =>
      match getUIntLE 4 b2 with
      | none => .error UDS_BUFFER_ERROR
      | some (minor, b3) =>
        match getUIntLE 8 b3 with
        | none => .error UDS_BUFFER_ERROR
        | some (size, b4) =>
          .ok (⟨id, major, minor, size⟩, b4)

/-- Modelled from the spec: `validate_header` (header.c) with
`exact_size = true` — the component id and version must match, and the
recorded size must equal the expected size exactly. -/
def validate_header (expected actual : Header) (exact_size : Bool) :
    Except Int Unit :=
  if expected.id ≠ actual.id then .error VDO_INCORRECT_COMPONENT
  else if expected.major_version ≠ actual.major_version ∨
          expected.minor_version ≠ actual.minor_version then
    .error VDO_UNSUPPORTED_VERSION
  else if expected.size > actual.size ∨
          (exact_size ∧ expected.size < actual.size) then
    .error VDO_UNSUPPORTED_VERSION
  else .ok ()

/-- `encode_block_map_state_2_0` (blockMapFormat.c): encode the header,
then the four u64 fields, then assert that exactly
`BLOCK_MAP_HEADER_2_0.size` bytes of payload were written. -/
def encode_block_map_state_2_0 (state : BlockMapState20)
    (buffer : List Nat) : Except Int (List Nat) :=
  let b1 := encode_header BLOCK_MAP_HEADER_2_0 buffer
  let initial_length := b1.length
  let b2 := putUIntLE 8 b1 state.flat_page_origin
  let b3 := putUIntLE 8 b2 state.flat_page_count
  let b4 := putUIntLE 8 b3 state.root_origin
  let b5 := putUIntLE 8 b4 state.root_count
  let encoded_size := b5.length - initial_length
  if BLOCK_MAP_HEADER_2_0.size = encoded_size then .ok b5
  else .error UDS_ASSERTION_FAILED

/-- `decode_block_map_state_2_0` (blockMapFormat.c): decode and
validate the header, read `flat_page_origin` (must be the canonical
origin), `flat_page_count` (must be 0), `root_origin` and `root_count`,
and assert the decoded payload size equals the size recorded in
`BLOCK_MAP_HEADER_2_0`. -/
def decode_block_map_state_2_0 (buffer : List Nat) :
    Except Int (BlockMapState20 × List Nat) :=
  match decode_header buffer with
  | .error e => .error e
  | .ok (header, b1) =>
    match validate_header BLOCK_MAP_HEADER_2_0 header true with
    | .error e => .error e
    | .ok _ =>
      let initial_length := b1.length
      match getUIntLE 8 b1 with
      | none => .error UDS_BUFFER_ERROR
      | some (fpo, b2) =>
        if fpo ≠ BLOCK_MAP_FLAT_PAGE_ORIGIN then
          .error UDS_ASSERTION_FAILED
        else
          match getUIntLE 8 b2 with
          | none => .error UDS_BUFFER_ERROR
          | some (fpc, b3) =>
            if fpc ≠ 0 then .error UDS_ASSERTION_FAILED
            else
              match getUIntLE 8 b3 with
              | none => .error UDS_BUFFER_ERROR
              | some (ro, b4) =>
                match getUIntLE 8 b4 with
                | none => .error UDS_BUFFER_ERROR
                | some (rc, b5) =>
                  let decoded_size := initial_length - b5.length
                  if BLOCK_MAP_HEADER_2_0.size = decoded_size then
                    .ok (⟨fpo, fpc, ro, rc⟩, b5)
                  else .error UDS_ASSERTION_FAILED

/-- A valid block-map component state: canonical flat-page origin, zero
flat pages, and all fields in u64 range. -/
def ValidBlockMapState (s : BlockMapState20) : Prop :=
  s.flat_page_origin = BLOCK_MAP_FLAT_PAGE_ORIGIN ∧
  s.flat_page_count = 0 ∧
  s.flat_page_origin < 2 ^ 64 ∧ s.flat_page_count < 2 ^ 64 ∧
  s.root_origin < 2 ^ 64 ∧ s.root_count < 2 ^ 64

end Kvdo

namespace Kvdo

/-- `toLEBytes` always produces exactly `w` bytes. -/
theorem toLEBytes_length (w v : Nat) : (toLEBytes w v).length = w := by
  induction w generalizing v with
  | zero => rfl
  | succ n ih => simp [toLEBytes, ih]

/-- Little-endian decode inverts encode up to the width. -/
theorem fromLEBytes_toLEBytes (w v : Nat) :
    fromLEBytes (toLEBytes w v) = v % 256 ^ w := by
  induction w generalizing v with
  | zero =>
    simp [toLEBytes, fromLEBytes]
    omega
  | succ n ih =>
    simp only [toLEBytes, fromLEBytes, ih]
    rw [pow_succ, mul_comm (256 ^ n) 256, Nat.mod_mul]

/-- Reading `w` bytes from an encoding of `v < 256^w` followed by
anything returns `v` and the remainder. -/
theorem getUIntLE_toLEBytes (w v : Nat) (rest : List Nat)
    (hv : v < 256 ^ w) :
    getUIntLE w (toLEBytes w v ++ rest) = some (v, rest) := by
  have hlen : (toLEBytes w v).length = w := toLEBytes_length w v
  have htake : (toLEBytes w v ++ rest).take w = toLEBytes w v := by
    rw [List.take_append_of_le_length (le_of_eq hlen.symm)]
    exact List.take_of_length_le (le_of_eq hlen)
  have hdrop : (toLEBytes w v ++ rest).drop w = rest := by
    rw [List.drop_append_of_le_length (le_of_eq hlen.symm)]
    rw [List.drop_of_length_le (le_of_eq hlen)]
    simp
  unfold getUIntLE
  rw [if_pos (by simp [hlen]), htake, hdrop, fromLEBytes_toLEBytes,
    Nat.mod_eq_of_lt hv]

end Kvdo

namespace Kvdo

/-- Encoding always succeeds and appends the header followed by the
four u64 fields. -/
theorem encode_block_map_state_2_0_eq (s : BlockMapState20)
    (b : List Nat) :
    encode_block_map_state_2_0 s b =
      .ok (encode_header BLOCK_MAP_HEADER_2_0 b ++
        (toLEBytes 8 s.flat_page_origin ++
         (toLEBytes 8 s.flat_page_count ++
          (toLEBytes 8 s.root_origin ++
           toLEBytes 8 s.root_count)))) := by
  unfold encode_block_map_state_2_0 putUIntLE
  rw [if_pos (by simp [toLEBytes_length, BLOCK_MAP_HEADER_2_0])]
  simp [List.append_assoc]

/-- Decoding inverts header encoding when the fields are in range. -/
theorem decode_header_encode_header (h : Header) (rest : List Nat)
    (h1 : h.id < 256 ^ 4) (h2 : h.major_version < 256 ^ 4)
    (h3 : h.minor_version < 256 ^ 4) (h4 : h.size < 256 ^ 8) :
    decode_header (encode_header h [] ++ rest) = .ok (h, rest) := by
  unfold encode_header putUIntLE decode_header
  simp only [List.nil_append, List.append_assoc]
  rw [getUIntLE_toLEBytes 4 h.id _ h1]
  simp only []
  rw [getUIntLE_toLEBytes 4 h.major_version _ h2]
  simp only []
  rw [getUIntLE_toLEBytes 4 h.minor_version _ h3]
  simp only []
  rw [getUIntLE_toLEBytes 8 h.size _ h4]

/-- A successful exact-size header validation implies field-wise
equality. -/
theorem validate_header_ok_eq (e a : Header)
    (hx : validate_header e a true = .ok ()) :
    a.id = e.id ∧ a.major_version = e.major_version ∧
    a.minor_version = e.minor_version ∧ a.size = e.size := by
  unfold validate_header at hx
  split_ifs at hx <;> simp_all

end Kvdo

namespace Kvdo

/-- C8: geometry round-trip for the block-map component state — for
every valid state, decoding the encoding yields the state back with the
buffer fully consumed; and decoding succeeds only when the decoded
`flat_page_origin` is the canonical origin, the decoded
`flat_page_count` is zero, the size recorded in the header equals the
canonical component size, and the payload byte count consumed after the
header equals that size. -/
theorem block_map_state_codec_spec :
    (∀ s : BlockMapState20, ValidBlockMapState s →
      ∀ b, encode_block_map_state_2_0 s [] = .ok b →
        decode_block_map_state_2_0 b = .ok (s, [])) ∧
    (∀ (buffer : List Nat) (s : BlockMapState20) (rest : List Nat),
      decode_block_map_state_2_0 buffer = .ok (s, rest) →
        s.flat_page_origin = BLOCK_MAP_FLAT_PAGE_ORIGIN ∧
        s.flat_page_count = 0 ∧
        ∃ hdr b1, decode_header buffer = .ok (hdr, b1) ∧
          hdr.size = BLOCK_MAP_HEADER_2_0.size ∧
          BLOCK_MAP_HEADER_2_0.size = b1.length - rest.length) := by
  constructor
  · rintro ⟨fpo, fpc, ro, rc⟩ ⟨hv1, hv2, hv3, hv4, hv5, hv6⟩ b hb
    rw [encode_block_map_state_2_0_eq] at hb
    injection hb with hb
    subst hb
    unfold decode_block_map_state_2_0
    rw [decode_header_encode_header _ _ (by decide) (by decide)
      (by decide) (by decide)]
    simp only []
    rw [show validate_header BLOCK_MAP_HEADER_2_0 BLOCK_MAP_HEADER_2_0
        true = .ok () from rfl]
    simp only []
    rw [getUIntLE_toLEBytes 8 fpo _ hv3]
    simp only []
    rw [if_neg (by simp_all)]
    rw [getUIntLE_toLEBytes 8 fpc _ hv4]
    simp only []
    rw [if_neg (by simp_all)]
    rw [getUIntLE_toLEBytes 8 ro _ hv5]
    simp only []
    rw [← List.append_nil (toLEBytes 8 rc)]
    rw [getUIntLE_toLEBytes 8 rc [] hv6]
    simp only []
    rw [if_pos (by simp [toLEBytes_length, BLOCK_MAP_HEADER_2_0])]
  · intro buffer s rest hdec
    unfold decode_block_map_state_2_0 at hdec
    rcases hh : decode_header buffer with e | p
    · rw [hh] at hdec; exact absurd hdec (by simp)
    · obtain ⟨hdr, b1⟩ := p
      rw [hh] at hdec
      simp only [] at hdec
      rcases hval : validate_header BLOCK_MAP_HEADER_2_0 hdr true
        with e | u
      · rw [hval] at hdec; exact absurd hdec (by simp)
      · obtain ⟨⟩ := u
        rw [hval] at hdec
        simp only [] at hdec
        rcases hg1 : getUIntLE 8 b1 with _ | p1
        · rw [hg1] at hdec; exact absurd hdec (by simp)
        obtain ⟨fpo, b2⟩ := p1
        rw [hg1] at hdec
        simp only [] at hdec
        by_cases ho : fpo = BLOCK_MAP_FLAT_PAGE_ORIGIN
        · rw [if_neg (by simp [ho])] at hdec
          rcases hg2 : getUIntLE 8 b2 with _ | p2
          · rw [hg2] at hdec; exact absurd hdec (by simp)
          obtain ⟨fpc, b3⟩ := p2
          rw [hg2] at hdec
          simp only [] at hdec
          by_cases hc : fpc = 0
          · rw [if_neg (by simp [hc])] at hdec
            rcases hg3 : getUIntLE 8 b3 with _ | p3
            · rw [hg3] at hdec; exact absurd hdec (by simp)
            obtain ⟨ro, b4⟩ := p3
            rw [hg3] at hdec
            simp only [] at hdec
            rcases hg4 : getUIntLE 8 b4 with _ | p4
            · rw [hg4] at hdec; exact absurd hdec (by simp)
            obtain ⟨rc, b5⟩ := p4
            rw [hg4] at hdec
            simp only [] at hdec
            by_cases hsz : BLOCK_MAP_HEADER_2_0.size = b1.length - b5.length
            · rw [if_pos hsz] at hdec
              injection hdec with hdec
              injection hdec with hs hrest
              subst hrest
              have hsize := (validate_header_ok_eq _ _ hval).2.2.2
              refine ⟨?_, ?_, hdr, b1, rfl, hsize, hsz⟩
              · rw [← hs]; exact ho
              · rw [← hs]; exact hc
            · rw [if_neg hsz] at hdec; exact absurd hdec (by simp)
          · rw [if_pos (by simp [hc])] at hdec
            exact absurd hdec (by simp)
        · rw [if_pos (by simp [ho])] at hdec
          exact absurd hdec (by simp)

end Kvdo

namespace Kvdo

/-- Witness for C8 at a concrete input: the valid state ⟨1, 0, 3, 60⟩
round-trips through its concrete encoding. -/
theorem block_map_state_codec_spec_witness :
    ValidBlockMapState ⟨1, 0, 3, 60⟩ ∧
    decode_block_map_state_2_0
      (encode_header BLOCK_MAP_HEADER_2_0 [] ++
        (toLEBytes 8 1 ++ (toLEBytes 8 0 ++
         (toLEBytes 8 3 ++ toLEBytes 8 60)))) =
      .ok (⟨1, 0, 3, 60⟩, []) :=
  ⟨by unfold ValidBlockMapState BLOCK_MAP_FLAT_PAGE_ORIGIN; decide,
   block_map_state_codec_spec.1 ⟨1, 0, 3, 60⟩
     (by unfold ValidBlockMapState BLOCK_MAP_FLAT_PAGE_ORIGIN; decide)
     _ (encode_block_map_state_2_0_eq ⟨1, 0, 3, 60⟩ [])⟩

end Kvdo

namespace Kvdo

/-! ## Buffered writer (bufferedWriter.c, C10) -/

/-- `UDS_INCORRECT_ALIGNMENT` -/
def UDS_INCORRECT_ALIGNMENT : Int := 1031

/-- A write issued to the underlying `IORegion`:
`writeToRegion(region, pos, data, size, len)`. -/
inductive WEv where
  | regionWrite (pos : Int) (data : List Nat) (size : Nat) (len : Nat)
  deriving DecidableEq, Repr

/-- `struct bufferedWriter` (bufferedWriter.c): `buf` holds the bytes
between `bw_buf` and `bw_ptr` (so `spaceUsedInBuffer = buf.length`);
the region handle itself is replaced by the write oracle passed to each
operation. -/
structure BufferedWriter where
  pos : Int
  size : Nat
  buf : List Nat
  err : Int
  used : Bool
  deriving DecidableEq, Repr

/-- `spaceUsedInBuffer`: `bw_ptr - bw_buf`. -/
def spaceUsedInBuffer (bw : BufferedWriter) : Nat := bw.buf.length

/-- `spaceRemainingInWriteBuffer`. -/
def spaceRemainingInWriteBuffer (bw : BufferedWriter) : Nat :=
  bw.size - spaceUsedInBuffer bw

/-- `flushBufferedWriter` (bufferedWriter.c): return the latched error
if set; otherwise write the buffered bytes to the region, latching and
returning any failure, and on success reset the buffer and advance the
position by the buffer size.  `wr pos data size len` is the result of
`writeToRegion(region, pos, data, size, len)`. -/
def flushBufferedWriter (wr : Int → List Nat → Nat → Nat → Int)
    (bw : BufferedWriter) : Int × BufferedWriter × List WEv :=
  if bw.err ≠ UDS_SUCCESS then (bw.err, bw, [])
  else
    let n := spaceUsedInBuffer bw
    if n > 0 then
      let result := wr bw.pos bw.buf bw.size n
      if result ≠ UDS_SUCCESS then
        (result, { bw with err := result },
         [.regionWrite bw.pos bw.buf bw.size n])
      else
        (UDS_SUCCESS,
         { bw with buf := [], pos := bw.pos + bw.size },
         [.regionWrite bw.pos bw.buf bw.size n])
    else (UDS_SUCCESS, bw, [])

/-- The loop of `writeToBufferedWriter` (bufferedWriter.c).  The `fuel`
argument bounds the number of iterations; `2 * data.length + 2`
iterations suffice whenever `bw.size > 0`, since every iteration either
consumes data, flips `alwaysCopy` (at most once), flushes a full buffer,
or exits.  Note that in the bulk branch the C declares an inner `int
result` shadowing the outer one, so a bulk-write failure latches
`bw_err` and breaks but the call still returns the outer
`UDS_SUCCESS`. -/
def writeToBufferedWriterLoop (wr : Int → List Nat → Nat → Nat → Int) :
    Nat → BufferedWriter → List Nat → Bool →
    Int × BufferedWriter × List WEv
  | 0, bw, _, _ => (UDS_SUCCESS, bw, [])
  | fuel + 1, bw, data, alwaysCopy =>
    if data.length = 0 then (UDS_SUCCESS, bw, [])
    else if bw.size ≤ data.length ∧ alwaysCopy = false ∧
        spaceUsedInBuffer bw = 0 then
      let n := data.length / bw.size * bw.size
      let result := wr bw.pos (data.take n) n n
      if result = UDS_INCORRECT_ALIGNMENT then
        -- switch to copying through the buffer
        let rest := writeToBufferedWriterLoop wr fuel bw data true
        (rest.1, rest.2.1,
         .regionWrite bw.pos (data.take n) n n :: rest.2.2)
      else if result ≠ UDS_SUCCESS then
        (UDS_SUCCESS, { bw with err := result },
         [.regionWrite bw.pos (data.take n) n n])
      else
        let rest := writeToBufferedWriterLoop wr fuel
          { bw with pos := bw.pos + n } (data.drop n) alwaysCopy
        (rest.1, rest.2.1,
         .regionWrite bw.pos (data.take n) n n :: rest.2.2)
    else
      let avail := spaceRemainingInWriteBuffer bw
      let chunk := min data.length avail
      let bw1 := { bw with buf := bw.buf ++ data.take chunk }
      let data1 := data.drop chunk
      if spaceRemainingInWriteBuffer bw1 = 0 then
        let f := flushBufferedWriter wr bw1
        if f.1 ≠ UDS_SUCCESS then (f.1, f.2.1, f.2.2)
        else
          let rest := writeToBufferedWriterLoop wr fuel f.2.1 data1
            alwaysCopy
          (rest.1, rest.2.1, f.2.2 ++ rest.2.2)
      else
        writeToBufferedWriterLoop wr fuel bw1 data1 alwaysCopy

/-- `writeToBufferedWriter` (bufferedWriter.c): return the latched
error if set; otherwise run the copy/bulk loop and mark the writer
used. -/
def writeToBufferedWriter (wr : Int → List Nat → Nat → Nat → Int)
    (bw : BufferedWriter) (data : List Nat) :
    Int × BufferedWriter × List WEv :=
  if bw.err ≠ UDS_SUCCESS then (bw.err, bw, [])
  else
    let out := writeToBufferedWriterLoop wr (2 * data.length + 2) bw
      data false
    (out.1, { out.2.1 with used := true }, out.2.2)

/-- The loop of `writeZerosToBufferedWriter` (bufferedWriter.c). -/
def writeZerosToBufferedWriterLoop
    (wr : Int → List Nat → Nat → Nat → Int) :
    Nat → BufferedWriter → Nat → Int × BufferedWriter × List WEv
  | 0, bw, _ => (UDS_SUCCESS, bw, [])
  | fuel + 1, bw, len =>
    if len = 0 then (UDS_SUCCESS, bw, [])
    else
      let avail := spaceRemainingInWriteBuffer bw
      let chunk := min len avail
      let bw1 := { bw with buf := bw.buf ++ List.replicate chunk 0 }
      let len1 := len - chunk
      if spaceRemainingInWriteBuffer bw1 = 0 then
        let f := flushBufferedWriter wr bw1
        if f.1 ≠ UDS_SUCCESS then (f.1, f.2.1, f.2.2)
        else
          let rest := writeZerosToBufferedWriterLoop wr fuel f.2.1 len1
          (rest.1, rest.2.1, f.2.2 ++ rest.2.2)
      else
        writeZerosToBufferedWriterLoop wr fuel bw1 len1

/-- `writeZerosToBufferedWriter` (bufferedWriter.c). -/
def writeZerosToBufferedWriter (wr : Int → List Nat → Nat → Nat → Int)
    (bw : BufferedWriter) (len : Nat) :
    Int × BufferedWriter × List WEv :=
  if bw.err ≠ UDS_SUCCESS then (bw.err, bw, [])
  else
    let out := writeZerosToBufferedWriterLoop wr (2 * len + 2) bw len
    (out.1, { out.2.1 with used := true }, out.2.2)

end Kvdo

namespace Kvdo

/-- C10: once the stored error field is set, `writeToBufferedWriter`,
`writeZerosToBufferedWriter` and `flushBufferedWriter` each return that
same stored error immediately: no region write is issued, and the
buffer contents, position and every other field stay unchanged. -/
theorem buffered_writer_error_latched
    (wr : Int → List Nat → Nat → Nat → Int) (bw : BufferedWriter)
    (data : List Nat) (len : Nat) (h : bw.err ≠ UDS_SUCCESS) :
    writeToBufferedWriter wr bw data = (bw.err, bw, []) ∧
    writeZerosToBufferedWriter wr bw len = (bw.err, bw, []) ∧
    flushBufferedWriter wr bw = (bw.err, bw, []) := by
  unfold writeToBufferedWriter writeZerosToBufferedWriter
    flushBufferedWriter
  simp [h]

/-- Witness for C10 at a concrete input: a writer with latched error
`-5` ignores a data write, a zero write and a flush. -/
theorem buffered_writer_error_latched_witness :
    (-5 : Int) ≠ UDS_SUCCESS ∧
    writeToBufferedWriter (fun _ _ _ _ => UDS_SUCCESS)
      { pos := 0, size := 4, buf := [7], err := -5, used := true }
      [1, 2, 3] =
      (-5, { pos := 0, size := 4, buf := [7], err := -5, used := true },
       []) ∧
    writeZerosToBufferedWriter (fun _ _ _ _ => UDS_SUCCESS)
      { pos := 0, size := 4, buf := [7], err := -5, used := true } 9 =
      (-5, { pos := 0, size := 4, buf := [7], err := -5, used := true },
       []) ∧
    flushBufferedWriter (fun _ _ _ _ => UDS_SUCCESS)
      { pos := 0, size := 4, buf := [7], err := -5, used := true } =
      (-5, { pos := 0, size := 4, buf := [7], err := -5, used := true },
       []) :=
  ⟨by decide,
   buffered_writer_error_latched (fun _ _ _ _ => UDS_SUCCESS)
     { pos := 0, size := 4, buf := [7], err := -5, used := true }
     [1, 2, 3] 9 (by decide)⟩

end Kvdo
